import Mathlib

/-
Shallow embedding of the two scripts of renenijman/ai-toolkit-runpod:
  * src/download_models.py : bounded-retry downloader plus a permissive
    offline-load verifier (all side effects are prints; the only process
    control is sys.exit(1));
  * src/test_cache.py : standalone cache diagnostic checker with exit
    codes 0 / 1 / 2.
External library primitives (snapshot_download, the from_pretrained
loaders, try_to_load_from_cache, filesystem queries) are modelled as
oracle parameters: a Bool tells whether the call succeeds, an
`Option Bool` lookup result where `none` models a raised exception.
Python's `except Exception` does not catch `SystemExit`, so a
`sys.exit(1)` inside a try-block still terminates the process; the
embedding keeps the two apart through the `ProcOutcome` type.
-/

/-- Outcome of running a script (or one of its functions) as a process:
either control returns normally or `sys.exit code` tore the process down. -/
inductive ProcOutcome where
  | returned
  | exited (code : Nat)

/-- The first fixed model identifier used by both scripts. -/
def hidream : String := "HiDream-ai/HiDream-I1-Full"

/-- The second fixed model identifier used by both scripts. -/
def llama : String := "unsloth/Meta-Llama-3.1-8B-Instruct"

/-- `1024 ** 3`, the byte count of one GB as both scripts compute it. -/
def GB : Nat := 1024 ^ 3

/-- One `snapshot_download(...)` call with the keyword arguments the
downloader passes (download_models.py lines 18-23). -/
structure DownloadCall where
  repo_id : String
  cache_dir : String
  resume_download : Bool
  local_files_only : Bool

/-- One `from_pretrained(...)` call with the keyword arguments passed by
the verifier and the diagnostic checker. -/
structure LoadCall where
  model : String
  cache_dir : String
  local_files_only : Bool

namespace DownloadModels

/-- How `download_with_retry` finishes: `return True`, `sys.exit(1)`, or
the `return False` after the loop (reachable only with `max_retries = 0`). -/
inductive RetryOutcome where
  | success
  | exit1
  | returnFalse

/-- Observable behaviour of one `download_with_retry` call: how many
attempts were made, how many `time.sleep(10)` calls ran (and the seconds
slept in total), and how the call finished. -/
structure RetryResult where
  attempts : Nat
  sleeps : Nat
  sleepSeconds : Nat
  outcome : RetryOutcome

/-- The loop body of `download_with_retry` (download_models.py lines
15-32): `remaining` counts the loop iterations still to run, `attempt`
is the Python loop index, `prim attempt` tells whether the
`snapshot_download` call of that attempt succeeds (false = raises). -/
def retryGo (prim : Nat → Bool) (maxRetries : Nat) : Nat → Nat → RetryResult
  | 0, _ => ⟨0, 0, 0, .returnFalse⟩
  | remaining + 1, attempt =>
    if prim attempt then
      ⟨1, 0, 0, .success⟩
    else if attempt < maxRetries - 1 then
      let r := retryGo prim maxRetries remaining (attempt + 1)
      ⟨r.attempts + 1, r.sleeps + 1, r.sleepSeconds + 10, r.outcome⟩
    else
      ⟨1, 0, 0, .exit1⟩

/-- `download_with_retry(repo_id, max_retries)` (download_models.py lines
13-33) with the per-attempt success of the download primitive as oracle. -/
def download_with_retry (prim : Nat → Bool) (maxRetries : Nat) : RetryResult :=
  retryGo prim maxRetries maxRetries 0

/-- Environment oracles for `verify_models` (download_models.py lines
35-104): whether each statement of the try-block that can raise an
`Exception` succeeds, whether `/opt/huggingface_cache` exists, and the
aggregate byte size computed in Test 4. -/
structure VerifyEnv where
  importsOk : Bool
  tokLoadOk : Bool
  cfgLoadOk : Bool
  vaeLoadOk : Bool
  cacheDirExists : Bool
  sizeCalcOk : Bool
  cacheSizeBytes : Nat
  globOk : Bool
  hidreamFound : Bool
  llamaFound : Bool

/-- Observable behaviour of `verify_models`: whether the process survives
the call, whether the `except Exception` handler printed its
"VERIFICATION WARNING", whether the under-20GB size warning was printed,
whether Test 5 was reached, and whether Test 5 printed its warning. -/
structure VerifyResult where
  outcome : ProcOutcome
  exceptWarning : Bool
  sizeWarning : Bool
  test5Reached : Bool
  test5Warning : Bool

/-- `verify_models()` (download_models.py lines 35-104).  Every failing
statement inside the try-block raises an `Exception`, which transfers
control to the `except Exception` handler: a warning is printed and the
function returns normally.  The `sys.exit(1)` of the missing-directory
branch (line 84) raises `SystemExit`, which `except Exception` does not
catch, so it terminates the process with status 1. -/
def verify_models (e : VerifyEnv) : VerifyResult :=
  if e.importsOk = false then ⟨.returned, true, false, false, false⟩
  else if e.tokLoadOk = false then ⟨.returned, true, false, false, false⟩
  else if e.cfgLoadOk = false then ⟨.returned, true, false, false, false⟩
  else if e.vaeLoadOk = false then ⟨.returned, true, false, false, false⟩
  else if e.cacheDirExists = false then ⟨.exited 1, false, false, false, false⟩
  else if e.sizeCalcOk = false then ⟨.returned, true, false, false, false⟩
  else
    let sizeWarn := decide (e.cacheSizeBytes < 20 * GB)
    if e.globOk = false then ⟨.returned, true, sizeWarn, true, false⟩
    else ⟨.returned, false, sizeWarn, true, !(e.hidreamFound && e.llamaFound)⟩

/-- Observable behaviour of `main()` of download_models.py: which repos a
`download_with_retry` call was started for, whether `verify_models` ran,
and how the process ended. -/
structure MainResult where
  downloadCallsStarted : List String
  verifyRan : Bool
  outcome : ProcOutcome

/-- `main()` (download_models.py lines 106-117): download the two fixed
models with the default retry ceiling 3, then verify.  A `sys.exit(1)`
inside `download_with_retry` propagates and ends the process at once. -/
def main (prim : String → Nat → Bool) (e : VerifyEnv) : MainResult :=
  let r1 := download_with_retry (prim hidream) 3
  match r1.outcome with
  | .exit1 => ⟨[hidream], false, .exited 1⟩
  | _ =>
    let r2 := download_with_retry (prim llama) 3
    match r2.outcome with
    | .exit1 => ⟨[hidream, llama], false, .exited 1⟩
    | _ => ⟨[hidream, llama], true, (verify_models e).outcome⟩

/-- The `snapshot_download` calls `main` issues, as a function of the
`HF_HOME` environment variable (download_models.py reads no environment
variable: the cache path is the literal string of lines 18-23). -/
def downloadCalls (hfHome : Option String) : List DownloadCall :=
  [⟨hidream, "/opt/huggingface_cache", true, false⟩,
   ⟨llama, "/opt/huggingface_cache", true, false⟩]

/-- The `from_pretrained` calls `verify_models` issues (tokenizer, config,
VAE; download_models.py lines 46-69), as a function of `HF_HOME`. -/
def verifierLoadCalls (hfHome : Option String) : List LoadCall :=
  [⟨llama, "/opt/huggingface_cache", true⟩,
   ⟨llama, "/opt/huggingface_cache", true⟩,
   ⟨hidream, "/opt/huggingface_cache", true⟩]

end DownloadModels

namespace StrictVerifier

/-- Modelled from the spec: the repository holds a second, strict copy of
`download_models.py` (Variant A of section 4.2) that is not present under
src/.  Per the spec it loads a tokenizer, a text-model configuration and a
diffusion-model configuration offline, requires total cache size of at
least 25 GB, and any failure is fatal (non-zero exit); per section 8, when
the cache directory is absent it exits 1 with a "cache directory does not
exist" condition before any size or load checks run.  `Event` records
which checks a run executed, in order. -/
inductive Event where
  | dirCheck
  | loadTokenizer
  | loadTextConfig
  | loadDiffusionConfig
  | sizeCheck

/-- Modelled from the spec: oracle inputs of the strict verifier. -/
structure Env where
  cacheDirExists : Bool
  tokLoadOk : Bool
  cfgLoadOk : Bool
  diffusionCfgLoadOk : Bool
  cacheSizeBytes : Nat

/-- Modelled from the spec: what a strict-verifier run did and how the
process ended. -/
structure Result where
  events : List Event
  outcome : ProcOutcome
  missingDirReported : Bool

/-- Modelled from the spec: the strict verifier variant of
`verify_models` missing from src/ (spec sections 4.2 Variant A, 7 and 8):
cache-directory existence is checked first and its absence exits 1 with
the "cache directory does not exist" condition; then the three offline
loads and the 25 GB size floor, each failure fatal with exit 1. -/
def verify_models (e : Env) : Result :=
  if e.cacheDirExists = false then
    ⟨[.dirCheck], .exited 1, true⟩
  else if e.tokLoadOk = false then
    ⟨[.dirCheck, .loadTokenizer], .exited 1, false⟩
  else if e.cfgLoadOk = false then
    ⟨[.dirCheck, .loadTokenizer, .loadTextConfig], .exited 1, false⟩
  else if e.diffusionCfgLoadOk = false then
    ⟨[.dirCheck, .loadTokenizer, .loadTextConfig, .loadDiffusionConfig],
      .exited 1, false⟩
  else if e.cacheSizeBytes < 25 * GB then
    ⟨[.dirCheck, .loadTokenizer, .loadTextConfig, .loadDiffusionConfig, .sizeCheck],
      .exited 1, false⟩
  else
    ⟨[.dirCheck, .loadTokenizer, .loadTextConfig, .loadDiffusionConfig, .sizeCheck],
      .returned, false⟩

end StrictVerifier

namespace TestCache

/-- The expected filenames for the HiDream model (test_cache.py lines 24-31). -/
def required_files_hidream : List String :=
  ["config.json", "model.safetensors.index.json",
   "diffusion_pytorch_model.safetensors", "tokenizer.json",
   "tokenizer_config.json", "special_tokens_map.json"]

/-- The expected filenames for the Llama model (test_cache.py lines 32-39). -/
def required_files_llama : List String :=
  ["config.json", "tokenizer.json", "tokenizer_config.json",
   "special_tokens_map.json", "model.safetensors.index.json",
   "generation_config.json"]

/-- `required_files.get(repo_id, [...])` (test_cache.py lines 42-46). -/
def files_to_check (repo_id : String) : List String :=
  if repo_id = hidream then required_files_hidream
  else if repo_id = llama then required_files_llama
  else ["config.json", "model.safetensors", "tokenizer.json"]

/-- The try-block loop and final decision of `check_model_cache`
(test_cache.py lines 48-66).  `lookup f = none` models
`try_to_load_from_cache` raising (caught by the `except`: return False);
`some b` models a truthy (`b = true`) or falsy result.  The accumulators
carry the `cached_files`, `missing_files` and the filenames already passed
to the lookup primitive, in order. -/
def checkFilesGo (lookup : String → Option Bool) (total : Nat)
    (cached missing queried : List String) : List String → Bool × List String
  | [] =>
    if missing.isEmpty = false then
      (decide (missing.length < total / 2), queried)
    else
      (decide (0 < cached.length), queried)
  | f :: rest =>
    match lookup f with
    | none => (false, queried ++ [f])
    | some true => checkFilesGo lookup total (cached ++ [f]) missing (queried ++ [f]) rest
    | some false => checkFilesGo lookup total cached (missing ++ [f]) (queried ++ [f]) rest

/-- `check_model_cache(repo_id, cache_dir)` (test_cache.py lines 12-70).
Returns the Bool result of the Python function together with the list of
filenames for which the cache-lookup primitive was queried. -/
def check_model_cache (repo_id : String) (dirExists : Bool)
    (lookup : String → String → Option Bool) : Bool × List String :=
  if dirExists = false then (false, [])
  else
    checkFilesGo (lookup repo_id) (files_to_check repo_id).length [] [] []
      (files_to_check repo_id)

/-- How many of the expected filenames of `repo_id` a (non-raising)
lookup reports missing. -/
def missingCount (repo_id : String) (lk : String → Bool) : Nat :=
  ((files_to_check repo_id).filter (fun f => !(lk f))).length

/-- `simulate_training_load()` (test_cache.py lines 72-101): true when
both offline loads succeed, false as soon as one raises. -/
def simulate_training_load (tokLoadOk cfgLoadOk : Bool) : Bool :=
  tokLoadOk && cfgLoadOk

/-- The fixed model list of `main()` (test_cache.py lines 108-111). -/
def models : List String := [hidream, llama]

/-- Oracle inputs of `main()` of test_cache.py: the `HF_HOME` environment
variable, whether the resolved cache directory exists, the cache-lookup
primitive, and the success of the two loads of `simulate_training_load`. -/
structure TCState where
  hfHome : Option String
  dirExists : Bool
  lookup : String → String → Option Bool
  tokLoadOk : Bool
  cfgLoadOk : Bool

/-- `main()` (test_cache.py lines 103-149), returning the process exit
code: the `all_cached` flag is folded over the model list exactly as the
Python loop does, then the 0 / 1 / 2 decision of lines 138-149. -/
def main (st : TCState) : Nat :=
  let all_cached :=
    models.foldl
      (fun acc m => if (check_model_cache m st.dirExists st.lookup).1 then acc else false)
      true
  let can_load := simulate_training_load st.tokLoadOk st.cfgLoadOk
  if all_cached && can_load then 0
  else if all_cached then 1
  else 2

/-- The cache directory `main()` resolves (test_cache.py line 113):
`os.environ.get(HF_HOME, /opt/huggingface_cache)`. -/
def cacheDir (hfHome : Option String) : String :=
  hfHome.getD "/opt/huggingface_cache"

/-- The `from_pretrained` calls `simulate_training_load` issues
(test_cache.py lines 81-94), as a function of `HF_HOME`. -/
def simulateLoadCalls (hfHome : Option String) : List LoadCall :=
  [⟨llama, hfHome.getD "/opt/huggingface_cache", true⟩,
   ⟨hidream, hfHome.getD "/opt/huggingface_cache", true⟩]

end TestCache

/-- Helper: one unfolding step of the retry loop. -/
theorem retryGo_step (prim : Nat → Bool) (maxRetries remaining attempt : Nat) :
    DownloadModels.retryGo prim maxRetries (remaining + 1) attempt =
      if prim attempt then ⟨1, 0, 0, .success⟩
      else if attempt < maxRetries - 1 then
        let r := DownloadModels.retryGo prim maxRetries remaining (attempt + 1)
        ⟨r.attempts + 1, r.sleeps + 1, r.sleepSeconds + 10, r.outcome⟩
      else ⟨1, 0, 0, .exit1⟩ := rfl

/-- Helper: with an always-raising download primitive, `r + 1` loop
iterations starting at loop index `a` (with `r + 1 + a` equal to the retry
ceiling) make `r + 1` attempts, sleep `r` times for 10 seconds each, and
end in `sys.exit(1)`. -/
theorem retryGo_allFail : ∀ (r a N : Nat), r + 1 + a = N →
    DownloadModels.retryGo (fun _ => false) N (r + 1) a =
      ⟨r + 1, r, 10 * r, .exit1⟩ := by
  intro r
  induction r with
  | zero =>
    intro a N h
    have hna : ¬ (a < N - 1) := by omega
    rw [retryGo_step]
    simp [hna]
  | succ k ih =>
    intro a N h
    have ha : a < N - 1 := by omega
    have hrec := ih (a + 1) N (by omega)
    rw [retryGo_step]
    simp only [Bool.false_eq_true, if_false, ha, if_true, hrec]
    simp
    omega

/-- C2: for every retry ceiling N ≥ 1, if the snapshot-download primitive
raises on every call, `download_with_retry` makes exactly N attempts,
sleeps 10 seconds between each pair of consecutive attempts (N - 1 sleeps,
none after the final attempt) and ends in `sys.exit(1)`; consequently
`main` of download_models.py terminates with status 1 after the first
model's retries, with no further download and no verification. -/
theorem download_with_retry_allFail_behaviour (N : Nat) (h : 1 ≤ N) :
    DownloadModels.download_with_retry (fun _ => false) N =
      ⟨N, N - 1, 10 * (N - 1), .exit1⟩ ∧
    ∀ e : DownloadModels.VerifyEnv,
      DownloadModels.main (fun _ _ => false) e =
        ⟨[hidream], false, .exited 1⟩ := by
  constructor
  · have hrw : N - 1 + 1 = N := by omega
    have hall := retryGo_allFail (N - 1) 0 N (by omega)
    unfold DownloadModels.download_with_retry
    calc DownloadModels.retryGo (fun _ => false) N N 0
        = DownloadModels.retryGo (fun _ => false) N (N - 1 + 1) 0 := by rw [hrw]
      _ = ⟨N - 1 + 1, N - 1, 10 * (N - 1), .exit1⟩ := hall
      _ = ⟨N, N - 1, 10 * (N - 1), .exit1⟩ := by rw [hrw]
  · intro e
    rfl

/-- Witness for C2 at the source's own retry ceiling N = 3. -/
theorem download_with_retry_allFail_behaviour_witness :
    DownloadModels.download_with_retry (fun _ => false) 3 =
      ⟨3, 2, 20, .exit1⟩ ∧
    DownloadModels.main (fun _ _ => false)
        ⟨true, true, true, true, true, true, 30 * GB, true, true, true⟩ =
      ⟨[hidream], false, .exited 1⟩ := by
  have h := download_with_retry_allFail_behaviour 3 (by omega)
  exact ⟨h.1, h.2 _⟩

/-- C7: if the snapshot-download primitive succeeds on the first call,
`download_with_retry` makes exactly one attempt, performs no sleep, and
returns True immediately, for every retry ceiling N ≥ 1. -/
theorem download_with_retry_first_success (N : Nat) (prim : Nat → Bool)
    (h1 : 1 ≤ N) (h2 : prim 0 = true) :
    DownloadModels.download_with_retry prim N = ⟨1, 0, 0, .success⟩ := by
  obtain ⟨n, rfl⟩ : ∃ n, N = n + 1 := ⟨N - 1, by omega⟩
  rw [DownloadModels.download_with_retry, retryGo_step]
  simp [h2]

/-- Witness for C7 at N = 3 with an always-succeeding primitive. -/
theorem download_with_retry_first_success_witness :
    DownloadModels.download_with_retry (fun _ => true) 3 = ⟨1, 0, 0, .success⟩ :=
  download_with_retry_first_success 3 (fun _ => true) (by omega) rfl

/-- C1: permissive verifier: under the load semantics of the code (the
offline, local-files-only loads against `/opt/huggingface_cache` raise
when that directory is absent, stated as the hypothesis), every exception
raised in the verification block is caught and demoted to a printed
warning and `verify_models` never terminates the process with a non-zero
status; in particular any load-call failure leads to the warning and a
normal return onto the success path. -/
theorem verify_models_never_fails (e : DownloadModels.VerifyEnv)
    (h : e.cacheDirExists = false → e.tokLoadOk = false) :
    (DownloadModels.verify_models e).outcome = .returned ∧
    ((e.tokLoadOk = false ∨ e.cfgLoadOk = false ∨ e.vaeLoadOk = false) →
      (DownloadModels.verify_models e).exceptWarning = true) := by
  obtain ⟨imp, tok, cfg, vae, dir, szOk, bytes, glob, hfd, lfd⟩ := e
  cases imp <;> cases tok <;> cases cfg <;> cases vae <;> cases dir <;>
    cases szOk <;> cases glob <;>
      simp_all [DownloadModels.verify_models]

/-- Witness for C1: the tokenizer load fails while the cache directory
exists; the verifier warns and returns normally. -/
theorem verify_models_never_fails_witness :
    (DownloadModels.verify_models
        ⟨true, false, true, true, true, true, 0, true, true, true⟩).outcome =
      .returned ∧
    (DownloadModels.verify_models
        ⟨true, false, true, true, true, true, 0, true, true, true⟩).exceptWarning =
      true := by
  have h := verify_models_never_fails
      ⟨true, false, true, true, true, true, 0, true, true, true⟩ (by simp)
  exact ⟨h.1, h.2 (Or.inl rfl)⟩

/-- C6: in the permissive `verify_models`, the fatal missing-directory
`sys.exit(1)` can run only if the three offline loads all completed
without raising; any load failure transfers control to the handler, which
warns and returns normally; hence when the cache directory is absent and
(as the code's local-files-only loads then do) all three loads raise, the
fatal exit is unreachable. -/
theorem verify_models_fatal_requires_loads (e : DownloadModels.VerifyEnv) :
    ((DownloadModels.verify_models e).outcome = .exited 1 →
      e.tokLoadOk = true ∧ e.cfgLoadOk = true ∧ e.vaeLoadOk = true) ∧
    ((e.tokLoadOk = false ∨ e.cfgLoadOk = false ∨ e.vaeLoadOk = false) →
      (DownloadModels.verify_models e).outcome = .returned ∧
      (DownloadModels.verify_models e).exceptWarning = true) ∧
    (e.cacheDirExists = false →
      (e.tokLoadOk = false ∧ e.cfgLoadOk = false ∧ e.vaeLoadOk = false) →
      ¬ (DownloadModels.verify_models e).outcome = .exited 1) := by
  obtain ⟨imp, tok, cfg, vae, dir, szOk, bytes, glob, hfd, lfd⟩ := e
  cases imp <;> cases tok <;> cases cfg <;> cases vae <;> cases dir <;>
    cases szOk <;> cases glob <;>
      simp [DownloadModels.verify_models]

/-- Witness for C6: cache directory absent and all three loads raising;
the run warns, returns normally, and does not exit. -/
theorem verify_models_fatal_requires_loads_witness :
    (DownloadModels.verify_models
        ⟨true, false, false, false, false, true, 0, true, true, true⟩).outcome =
      .returned ∧
    (DownloadModels.verify_models
        ⟨true, false, false, false, false, true, 0, true, true, true⟩).exceptWarning =
      true ∧
    ¬ (DownloadModels.verify_models
        ⟨true, false, false, false, false, true, 0, true, true, true⟩).outcome =
      .exited 1 := by
  have h := verify_models_fatal_requires_loads
      ⟨true, false, false, false, false, true, 0, true, true, true⟩
  have h2 := h.2.1 (Or.inl rfl)
  exact ⟨h2.1, h2.2, h.2.2 rfl ⟨rfl, rfl, rfl⟩⟩

/-- C8: in the permissive verifier, when the three loads succeed, the
cache directory exists and its aggregate size is under 20 GB, the size
check only prints the warning: the run still reaches Test 5 and the
function never exits with a non-zero status. -/
theorem verify_models_small_cache_warns_only (e : DownloadModels.VerifyEnv)
    (h1 : e.importsOk = true) (h2 : e.tokLoadOk = true)
    (h3 : e.cfgLoadOk = true) (h4 : e.vaeLoadOk = true)
    (h5 : e.cacheDirExists = true) (h6 : e.sizeCalcOk = true)
    (h7 : e.cacheSizeBytes < 20 * GB) :
    (DownloadModels.verify_models e).outcome = .returned ∧
    (DownloadModels.verify_models e).sizeWarning = true ∧
    (DownloadModels.verify_models e).test5Reached = true := by
  obtain ⟨imp, tok, cfg, vae, dir, szOk, bytes, glob, hfd, lfd⟩ := e
  cases glob <;> simp_all [DownloadModels.verify_models]

/-- Witness for C8: all loads succeed, the directory exists and holds
zero bytes. -/
theorem verify_models_small_cache_warns_only_witness :
    (DownloadModels.verify_models
        ⟨true, true, true, true, true, true, 0, true, true, true⟩).outcome =
      .returned ∧
    (DownloadModels.verify_models
        ⟨true, true, true, true, true, true, 0, true, true, true⟩).sizeWarning =
      true ∧
    (DownloadModels.verify_models
        ⟨true, true, true, true, true, true, 0, true, true, true⟩).test5Reached =
      true :=
  verify_models_small_cache_warns_only _ rfl rfl rfl rfl rfl rfl (by decide)

/-- C5: strict verifier (spec-modelled, the strict copy of
download_models.py is not under src/): when the cache directory is
absent, the process exits with status 1 under the "cache directory does
not exist" condition, and no load or size check has run. -/
theorem strict_verifier_absent_dir (e : StrictVerifier.Env)
    (h : e.cacheDirExists = false) :
    StrictVerifier.verify_models e =
      ⟨[.dirCheck], .exited 1, true⟩ ∧
    StrictVerifier.Event.loadTokenizer ∉ (StrictVerifier.verify_models e).events ∧
    StrictVerifier.Event.sizeCheck ∉ (StrictVerifier.verify_models e).events := by
  have heq : StrictVerifier.verify_models e = ⟨[.dirCheck], .exited 1, true⟩ := by
    unfold StrictVerifier.verify_models
    rw [h]
    simp
  refine ⟨heq, ?_, ?_⟩ <;> rw [heq] <;> simp

/-- Witness for C5 at a concrete strict-verifier environment with the
cache directory absent. -/
theorem strict_verifier_absent_dir_witness :
    StrictVerifier.verify_models ⟨false, true, true, true, 0⟩ =
      ⟨[.dirCheck], .exited 1, true⟩ :=
  (strict_verifier_absent_dir ⟨false, true, true, true, 0⟩ rfl).1

/-- Helper: the check loop with a lookup primitive that never raises
computes the cached / missing split of the file list by filtering, and
queries every filename in order. -/
theorem checkFilesGo_total (lk : String → Bool) :
    ∀ (files cached missing queried : List String) (total : Nat),
      TestCache.checkFilesGo (fun f => some (lk f)) total cached missing queried files =
        ((if (missing ++ files.filter (fun f => !(lk f))).isEmpty = false then
            decide ((missing ++ files.filter (fun f => !(lk f))).length < total / 2)
          else
            decide (0 < (cached ++ files.filter lk).length)),
         queried ++ files) := by
  intro files
  induction files with
  | nil =>
    intro c m q t
    simp [TestCache.checkFilesGo]
    split <;> rfl
  | cons f rest ih =>
    intro c m q t
    cases hf : lk f with
    | false =>
      simp [TestCache.checkFilesGo, hf, ih, List.filter_cons]
    | true =>
      simp [TestCache.checkFilesGo, hf, ih, List.filter_cons]

/-- Helper: every branch of the expected-file table is a non-empty list. -/
theorem files_to_check_pos (repo_id : String) :
    0 < (TestCache.files_to_check repo_id).length := by
  unfold TestCache.files_to_check
  split
  · decide
  · split
    · decide
    · decide

/-- C4 (amended): with the cache directory present and a non-raising
lookup, `check_model_cache` returns true exactly when either no expected
filename is missing, or the number of missing filenames is below the
integer floor of half the list length (Python `len(files_to_check) // 2`).
For the two 6-file models this coincides with "fewer than half missing";
for the 3-file default list it does not. -/
theorem check_model_cache_floor_half (repo_id : String) (lk : String → Bool) :
    (TestCache.check_model_cache repo_id true (fun r f => some (lk f))).1 = true ↔
      (TestCache.missingCount repo_id lk = 0 ∨
       TestCache.missingCount repo_id lk <
         (TestCache.files_to_check repo_id).length / 2) := by
  have hpos := files_to_check_pos repo_id
  have h0 : TestCache.check_model_cache repo_id true (fun r f => some (lk f)) =
      TestCache.checkFilesGo (fun f => some (lk f))
        (TestCache.files_to_check repo_id).length [] [] []
        (TestCache.files_to_check repo_id) := by
    simp [TestCache.check_model_cache]
  rw [h0, checkFilesGo_total lk]
  simp only [List.nil_append]
  unfold TestCache.missingCount
  cases hM : ((TestCache.files_to_check repo_id).filter (fun f => !(lk f))).isEmpty with
  | true =>
    have hnil : (TestCache.files_to_check repo_id).filter (fun f => !(lk f)) = [] :=
      List.isEmpty_iff.mp hM
    have hall : ∀ f ∈ TestCache.files_to_check repo_id, lk f = true := by
      intro f hf
      have hx := (List.filter_eq_nil_iff.mp hnil) f hf
      simpa using hx
    have hself : (TestCache.files_to_check repo_id).filter lk =
        TestCache.files_to_check repo_id := List.filter_eq_self.mpr hall
    simp [hnil, hself, hpos]
  | false =>
    have hne : (TestCache.files_to_check repo_id).filter (fun f => !(lk f)) ≠ [] := by
      intro hnil
      rw [hnil] at hM
      simp at hM
    have hlen : 0 < ((TestCache.files_to_check repo_id).filter (fun f => !(lk f))).length :=
      List.length_pos.mpr hne
    simp only [eq_self_iff_true, if_true, decide_eq_true_eq]
    omega

/-- C4 counterexample: for a repository identifier outside the fixed
table the expected list has 3 files; with exactly 1 of them missing —
fewer than half — `check_model_cache` still returns false. -/
theorem check_model_cache_half_counterexample :
    (TestCache.check_model_cache "some/other-model" true
        (fun r f => some (!(f == "config.json")))).1 = false ∧
    TestCache.missingCount "some/other-model" (fun f => !(f == "config.json")) = 1 ∧
    2 * TestCache.missingCount "some/other-model" (fun f => !(f == "config.json")) <
      (TestCache.files_to_check "some/other-model").length := by
  decide

/-- Witness for C4 (amended) at a lookup that resolves every filename. -/
theorem check_model_cache_floor_half_witness :
    (TestCache.check_model_cache "some/other-model" true
        (fun r f => some true)).1 = true :=
  (check_model_cache_floor_half "some/other-model" (fun _ => true)).mpr
    (Or.inl (by decide))

/-- C3: the exit code of test_cache.py `main` is a total function of the
per-model classifications and the simulated-load result: 0 exactly when
every model is classified cached and the simulated load succeeds, 1
exactly when every model is classified cached but the load fails, 2
exactly when some model is classified not cached. -/
theorem test_cache_exit_codes (st : TestCache.TCState) :
    (TestCache.main st = 0 ↔
      (TestCache.models.all
          (fun m => (TestCache.check_model_cache m st.dirExists st.lookup).1) = true ∧
       TestCache.simulate_training_load st.tokLoadOk st.cfgLoadOk = true)) ∧
    (TestCache.main st = 1 ↔
      (TestCache.models.all
          (fun m => (TestCache.check_model_cache m st.dirExists st.lookup).1) = true ∧
       TestCache.simulate_training_load st.tokLoadOk st.cfgLoadOk = false)) ∧
    (TestCache.main st = 2 ↔
      TestCache.models.all
          (fun m => (TestCache.check_model_cache m st.dirExists st.lookup).1) = false) := by
  obtain ⟨hf, dir, lkp, tok, cfg⟩ := st
  cases hA : (TestCache.check_model_cache hidream dir lkp).1 <;>
  cases hB : (TestCache.check_model_cache llama dir lkp).1 <;>
  cases tok <;> cases cfg <;>
    simp_all [TestCache.main, TestCache.models, TestCache.simulate_training_load]

/-- Witness for C3: absent cache directory, so neither model is
classified cached and the checker exits 2. -/
theorem test_cache_exit_codes_witness :
    TestCache.main ⟨none, false, fun r f => some true, true, true⟩ = 2 :=
  (test_cache_exit_codes ⟨none, false, fun r f => some true, true, true⟩).2.2.mpr
    (by decide)

/-- C10: for every repository identifier, when the cache directory does
not exist `check_model_cache` returns false at once and queries the
cache-lookup primitive for no filename. -/
theorem check_model_cache_absent_dir (repo_id : String)
    (lookup : String → String → Option Bool) :
    TestCache.check_model_cache repo_id false lookup = (false, []) := rfl

/-- C9: runs of the downloader and of its verifier that differ only in
the `HF_HOME` environment variable issue identical call lists, every one
of which targets the fixed path /opt/huggingface_cache, while the
diagnostic checker's `main` and `simulate_training_load` use the value of
the environment variable whenever it is set and fall back to the same
fixed path when it is not. -/
theorem cache_dir_env_behaviour (h1 h2 : Option String) (s : String) :
    DownloadModels.downloadCalls h1 = DownloadModels.downloadCalls h2 ∧
    DownloadModels.verifierLoadCalls h1 = DownloadModels.verifierLoadCalls h2 ∧
    (DownloadModels.downloadCalls h1).map DownloadCall.cache_dir =
      ["/opt/huggingface_cache", "/opt/huggingface_cache"] ∧
    (DownloadModels.verifierLoadCalls h1).map LoadCall.cache_dir =
      ["/opt/huggingface_cache", "/opt/huggingface_cache", "/opt/huggingface_cache"] ∧
    TestCache.cacheDir (some s) = s ∧
    TestCache.cacheDir none = "/opt/huggingface_cache" ∧
    (TestCache.simulateLoadCalls (some s)).map LoadCall.cache_dir = [s, s] :=
  ⟨rfl, rfl, rfl, rfl, rfl, rfl, rfl⟩
